import Mathlib

/-!
# ST Shield backend — payment-verification core, shallow embedding

This file embeds the payment-verification and order-integrity flow of the
st-shield-backend service (backend/server.js, backend/models/Policy.js) as
executable Lean definitions and proves the specified properties about them.

Machine words are modelled as `Nat` reduced modulo `2^32`; byte strings as
`List Nat` with every element below 256; JavaScript values (for the opaque
`user_data` payload and JS truthiness checks) as an inductive `JsValue`.
External collaborators (the Razorpay client, DynamoDB, the email sender) are
modelled at their boundary by outcome oracles threaded through an environment
record, exactly as the handler consumes them.
-/

namespace StShield

/-! ## JavaScript values and truthiness

`server.js` uses bare truthiness tests (`!razorpay_order_id`, `!user_data`,
`!expectedAmount`, `!amount`, `!process.env.RAZORPAY_KEY_SECRET`). We model
JSON-ish values and the JS falsiness of each form. -/

/-- A JSON-style JavaScript value, as carried in request bodies. -/
inductive JsValue where
  | undef
  | nullv
  | boolean (b : Bool)
  | number (n : Int)
  | str (s : String)
  | obj (fields : List (String × JsValue))
  | arr (elems : List JsValue)

/-- JavaScript falsiness of a value: `undefined`, `null`, `false`, `0` and
`""` are falsy; every object and array (even empty) is truthy. -/
def JsValue.falsy : JsValue → Bool
  | .undef => true
  | .nullv => true
  | .boolean b => !b
  | .number n => n == 0
  | .str s => s == ""
  | .obj _ => false
  | .arr _ => false

/-- JS falsiness of a string field (`!s` on a string): true exactly on `""`. -/
def jsFalsyStr (s : String) : Bool := s == ""

/-- JS falsiness of `Map.get` / property-lookup results that are numbers:
`undefined` (here `none`) and `0` are falsy. -/
def jsFalsyNum : Option Nat → Bool
  | none => true
  | some n => n == 0

/-! ## SHA-256 and HMAC-SHA256 (FIPS 180-4 / RFC 2104)

`server.js` computes `crypto.createHmac('sha256', secret).update(orderId +
"|" + paymentId).digest('hex')`. The embedding implements the algorithm the
Node crypto library runs: SHA-256 over byte lists, words as `Nat < 2^32`. -/

/-- 2^32, the word modulus. -/
def M32 : Nat := 4294967296

/-- 32-bit addition. -/
def wadd (a b : Nat) : Nat := (a + b) % M32

/-- 32-bit right rotation of a word `x < 2^32` by `n ≤ 32` bits. -/
def rotr (n x : Nat) : Nat := (x >>> n) ||| ((x % (2 ^ n)) <<< (32 - n))

/-- Logical right shift. -/
def shr (n x : Nat) : Nat := x >>> n

/-- SHA-256 Σ₀. -/
def bsig0 (x : Nat) : Nat := (rotr 2 x) ^^^ (rotr 13 x) ^^^ (rotr 22 x)

/-- SHA-256 Σ₁. -/
def bsig1 (x : Nat) : Nat := (rotr 6 x) ^^^ (rotr 11 x) ^^^ (rotr 25 x)

/-- SHA-256 σ₀. -/
def ssig0 (x : Nat) : Nat := (rotr 7 x) ^^^ (rotr 18 x) ^^^ (shr 3 x)

/-- SHA-256 σ₁. -/
def ssig1 (x : Nat) : Nat := (rotr 17 x) ^^^ (rotr 19 x) ^^^ (shr 10 x)

/-- SHA-256 Ch(x,y,z) = (x ∧ y) ⊕ (¬x ∧ z). -/
def ch (x y z : Nat) : Nat := (x &&& y) ^^^ ((x ^^^ 4294967295) &&& z)

/-- SHA-256 Maj(x,y,z). -/
def maj (x y z : Nat) : Nat := (x &&& y) ^^^ (x &&& z) ^^^ (y &&& z)

/-- The 64 SHA-256 round constants (FIPS 180-4 §4.2.2), written in decimal;
the standard test vectors below pin them. -/
def K256 : List Nat :=
  [1116352408, 1899447441, 3049323471, 3921009573, 961987163,
   1508970993, 2453635748, 2870763221, 3624381080, 310598401,
   607225278, 1426881987, 1925078388, 2162078206, 2614888103,
   3248222580, 3835390401, 4022224774, 264347078, 604807628,
   770255983, 1249150122, 1555081692, 1996064986, 2554220882,
   2821834349, 2952996808, 3210313671, 3336571891, 3584528711,
   113926993, 338241895, 666307205, 773529912, 1294757372,
   1396182291, 1695183700, 1986661051, 2177026350, 2456956037,
   2730485921, 2820302411, 3259730800, 3345764771, 3516065817,
   3600352804, 4094571909, 275423344, 430227734, 506948616,
   659060556, 883997877, 958139571, 1322822218, 1537002063,
   1747873779, 1955562222, 2024104815, 2227730452, 2361852424,
   2428436474, 2756734187, 3204031479, 3329325298]

/-- The SHA-256 initial hash value (FIPS 180-4 §5.3.3), in decimal. -/
def H256 : List Nat :=
  [1779033703, 3144134277, 1013904242, 2773480762,
   1359893119, 2600822924, 528734635, 1541459225]

/-- Big-endian byte expansion: `toBytesBE k n` is the `k` low-order bytes of
`n`, most significant first. -/
def toBytesBE : Nat → Nat → List Nat
  | 0, _ => []
  | k + 1, n => toBytesBE k (n >>> 8) ++ [n % 256]

/-- SHA-256 padding: append `0x80`, zeros to 56 mod 64, then the 64-bit
big-endian bit length. -/
def padMessage (msg : List Nat) : List Nat :=
  let L := msg.length
  let zeros := (119 - (L % 64)) % 64
  msg ++ [0x80] ++ List.replicate zeros 0 ++ toBytesBE 8 (L * 8)

/-- Block-splitting worker, structurally recursive on a fuel bound so that it
reduces inside the kernel; the fuel is always at least the list length. -/
def toBlocksAux : Nat → List Nat → List (List Nat)
  | 0, _ => []
  | fuel + 1, l => if l.isEmpty then [] else l.take 64 :: toBlocksAux fuel (l.drop 64)

/-- Split a byte list into 64-byte blocks (the input length is a multiple of
64 after padding). -/
def toBlocks (l : List Nat) : List (List Nat) := toBlocksAux l.length l

/-- Pack bytes into 32-bit big-endian words. -/
def bytesToWords : List Nat → List Nat
  | b0 :: b1 :: b2 :: b3 :: rest =>
      ((((b0 <<< 8) ||| b1) <<< 8 ||| b2) <<< 8 ||| b3) :: bytesToWords rest
  | _ => []

/-- One message-schedule extension step: append
`σ₁(W[t-2]) + W[t-7] + σ₀(W[t-15]) + W[t-16]`. -/
def schedStep (ws : List Nat) : List Nat :=
  let t := ws.length
  ws ++ [wadd (wadd (ssig1 (ws.getD (t - 2) 0)) (ws.getD (t - 7) 0))
              (wadd (ssig0 (ws.getD (t - 15) 0)) (ws.getD (t - 16) 0))]

/-- Extend the 16 block words to the 64-entry message schedule. -/
def schedule (w16 : List Nat) : List Nat := Nat.iterate schedStep 48 w16

/-- One SHA-256 compression round on the 8-word working state. -/
def round256 (st : List Nat) (k w : Nat) : List Nat :=
  match st with
  | [a, b, c, d, e, f, g, h] =>
      let t1 := wadd h (wadd (bsig1 e) (wadd (ch e f g) (wadd k w)))
      let t2 := wadd (bsig0 a) (maj a b c)
      [wadd t1 t2, a, b, c, wadd d t1, e, f, g]
  | st => st

/-- Compress one 64-byte block into the running hash value. -/
def compressBlock (h : List Nat) (block : List Nat) : List Nat :=
  let ws := schedule (bytesToWords block)
  let st := (List.zip K256 ws).foldl (fun s kw => round256 s kw.1 kw.2) h
  List.zipWith wadd h st

/-- SHA-256 of a byte list, as its 32 digest bytes. -/
def sha256 (msg : List Nat) : List Nat :=
  ((toBlocks (padMessage msg)).foldl compressBlock H256).flatMap (toBytesBE 4)

/-- HMAC-SHA256 (RFC 2104) of a message under a key, both byte lists. -/
def hmacSha256 (key msg : List Nat) : List Nat :=
  let k0 := if key.length > 64 then sha256 key else key
  let kp := k0 ++ List.replicate (64 - k0.length) 0
  let ipad := kp.map (fun b => b ^^^ 0x36)
  let opad := kp.map (fun b => b ^^^ 0x5c)
  sha256 (opad ++ sha256 (ipad ++ msg))

/-- Lowercase hex digit for `n < 16`. -/
def hexDigit (n : Nat) : Char := if n < 10 then Char.ofNat (48 + n) else Char.ofNat (87 + n)

/-- Two lowercase hex characters of one byte. -/
def hexByte (b : Nat) : List Char := [hexDigit (b / 16), hexDigit (b % 16)]

/-- Lowercase hex encoding of a byte list, as Node's `digest('hex')` emits. -/
def hexOfBytes (bs : List Nat) : String := String.mk (bs.flatMap hexByte)

/-- UTF-8 encoding of one character. -/
def utf8Char (c : Char) : List Nat :=
  let n := c.toNat
  if n < 0x80 then [n]
  else if n < 0x800 then [0xc0 ||| (n >>> 6), 0x80 ||| (n % 64)]
  else if n < 0x10000 then
    [0xe0 ||| (n >>> 12), 0x80 ||| ((n >>> 6) % 64), 0x80 ||| (n % 64)]
  else
    [0xf0 ||| (n >>> 18), 0x80 ||| ((n >>> 12) % 64),
     0x80 ||| ((n >>> 6) % 64), 0x80 ||| (n % 64)]

/-- UTF-8 byte encoding of a string, as `crypto.update` consumes it. -/
def utf8Encode (s : String) : List Nat := s.data.flatMap utf8Char

/-- Hex HMAC-SHA256 of a string message under a string secret:
`crypto.createHmac('sha256', secret).update(msg).digest('hex')`. -/
def hmacSha256Hex (secret msg : String) : String :=
  hexOfBytes (hmacSha256 (utf8Encode secret) (utf8Encode msg))

/-- The expected signature computed by the verification handler:
`crypto.createHmac('sha256', secret).update(orderId + "|" + paymentId).digest('hex')`. -/
def expectedSignature (secret orderId paymentId : String) : String :=
  hmacSha256Hex secret (orderId ++ "|" ++ paymentId)

/-- The signature verifier (spec §4.3): strict equality of the provided
signature against the expected one, `expectedSignature === razorpay_signature`
in server.js. Total, hence never throws. -/
def verifySignature (orderId paymentId secret provided : String) : Bool :=
  expectedSignature secret orderId paymentId == provided

/-! ## Data model: price table, stores, policies

`server.js` keeps `planPrices`, the in-memory `orderStore` map, and calls
`savePolicy` (backend/models/Policy.js) against DynamoDB. The two maps are
embedded as association lists whose `lookup` returns the most recent binding,
matching `Map.get` / key lookup after `Map.set` / conditional put. -/

/-- The server-side plan price table (`planPrices` in server.js):
property lookup on the object literal returns the mapped price or
`undefined` for any other key. -/
def planPrices (planType : String) : Option Nat :=
  if planType == "student-shield" then some 99900
  else if planType == "student-shield-plus" then some 199900
  else none

/-- The in-memory `orderStore` map from order id to expected amount. -/
abbrev OrderStore := List (String × Nat)

/-- `Map.set(k, v)`: the new binding shadows any older one for `lookup`. -/
def mapSet (m : OrderStore) (k : String) (v : Nat) : OrderStore := (k, v) :: m

/-- A policy item as built in the verify-payment handler. -/
structure Policy where
  policyId : String
  orderId : String
  paymentId : String
  userData : JsValue
  timestamp : String

/-- The durable policy table, keyed by `policyId`. -/
abbrev PolicyStore := List (String × Policy)

/-- The two failure modes of `savePolicy`: the missing-table-name guard
throws, and DynamoDB rejects a conditional put on an existing key. -/
inductive SaveErr where
  | noTable
  | conditionFailed

/-- `savePolicy` (backend/models/Policy.js): throw if `DYNAMODB_TABLE_NAME`
is unset, then issue a `PutCommand` with
`ConditionExpression: 'attribute_not_exists(policyId)'`. The DynamoDB
collaborator is modelled at its boundary by the put-if-absent contract: the
put fails, leaving the table unchanged, exactly when the key already
exists. -/
def savePolicy (tableName : String) (store : PolicyStore) (policy : Policy) :
    Except SaveErr PolicyStore :=
  if jsFalsyStr tableName then Except.error SaveErr.noTable
  else if (store.lookup policy.policyId).isSome then Except.error SaveErr.conditionFailed
  else Except.ok ((policy.policyId, policy) :: store)

/-! ## The request handlers

Environment record for one request: configuration read from the process
environment plus outcome oracles for the external collaborators (provider
calls and email sends succeed or fail at the collaborator's discretion). -/

/-- Per-request environment and external-collaborator outcomes. -/
structure Env where
  /-- `RAZORPAY_KEY_ID` is set and truthy. -/
  keyIdSet : Bool
  /-- `RAZORPAY_KEY_SECRET` (`""` models unset, matching JS falsiness). -/
  keySecret : String
  /-- `DYNAMODB_TABLE_NAME` (`""` models unset). -/
  tableName : String
  /-- Outcome of `razorpay.payments.fetch`, when the client exists:
  the charged amount of the payment, or a provider error. -/
  fetchOutcome : Except Unit Nat
  /-- Outcome of `razorpay.orders.create`: the new order id, or an error. -/
  createOutcome : Except Unit String
  /-- Whether `sendCompanyAcknowledgmentEmail` succeeds in the tamper-alert
  path. -/
  alertEmailOk : Bool
  /-- Whether `sendCustomerConfirmationEmail` succeeds. -/
  customerEmailOk : Bool
  /-- Whether `sendCompanyAcknowledgmentEmail` succeeds after persistence. -/
  companyEmailOk : Bool
  /-- `Date.now()` at policy-number generation time. -/
  now : Nat
  /-- `new Date().toISOString()`. -/
  isoTime : String

/-- The Razorpay client object is non-null exactly when both credentials are
truthy (`if (process.env.RAZORPAY_KEY_ID && process.env.RAZORPAY_KEY_SECRET)`
in server.js). -/
def razorpayConfigured (env : Env) : Bool := env.keyIdSet && !(jsFalsyStr env.keySecret)

/-- Body of `POST /api/verify-payment`. The three identifier fields arrive as
strings; `user_data` is an opaque JSON value. -/
structure VerifyReq where
  razorpay_order_id : String
  razorpay_payment_id : String
  razorpay_signature : String
  user_data : JsValue

/-- JSON response of the verify-payment endpoint. `policyNumber` is `none`
when the field is absent, `some none` for an explicit `null`, and
`some (some s)` for a string. -/
structure Resp where
  status : Nat
  success : Bool
  message : String
  policyNumber : Option (Option String)
  deriving DecidableEq

/-- Observable side-effect events of one verify-payment execution, in
program order. -/
inductive Ev where
  | orderLookup (orderId : String) (found : Option Nat)
  | fetchPayment (ok : Bool)
  | amountCheck (expected actual : Nat)
  | alertEmail (ok : Bool)
  | sigVerify (ok : Bool)
  | persistAttempt (policyId : String) (ok : Bool)
  | customerEmail (ok : Bool)
  | companyEmail (ok : Bool)
  deriving DecidableEq

/-- Result of one verify-payment execution: the HTTP response, the ordered
effect trace, and the two stores afterwards. -/
structure VerifyResult where
  resp : Resp
  trace : List Ev
  orders : OrderStore
  policies : PolicyStore

/-- `` `SSST${Date.now().toString().slice(-8)}` ``: JS `slice(-8)` keeps the
last eight characters (the whole string when shorter). -/
def policyNumberOf (now : Nat) : String :=
  "SSST" ++ (Nat.repr now).drop ((Nat.repr now).length - 8)

/-- The verify-payment pipeline: the `validatePaymentRequest` middleware
followed by the `/api/verify-payment` handler of server.js, line by line.
When the Razorpay client is null, `razorpay.payments.fetch` throws a
`TypeError` inside the handler's first `try`, which the matching `catch`
turns into the 500 amount-fetch failure — modelled by forcing the fetch
outcome to an error in that case. -/
def verifyPayment (env : Env) (orders : OrderStore) (policies : PolicyStore)
    (req : VerifyReq) : VerifyResult :=
  if jsFalsyStr req.razorpay_order_id || jsFalsyStr req.razorpay_payment_id ||
      jsFalsyStr req.razorpay_signature then
    ⟨⟨400, false, "Missing required payment fields", none⟩, [], orders, policies⟩
  else if req.user_data.falsy then
    ⟨⟨400, false, "Missing user data", none⟩, [], orders, policies⟩
  else if jsFalsyNum (orders.lookup req.razorpay_order_id) then
    ⟨⟨400, false, "Invalid order ID", none⟩,
     [Ev.orderLookup req.razorpay_order_id (orders.lookup req.razorpay_order_id)],
     orders, policies⟩
  else
    match (if razorpayConfigured env then env.fetchOutcome else Except.error ()) with
    | Except.error _ =>
        ⟨⟨500, false, "Could not verify payment amount", none⟩,
         [Ev.orderLookup req.razorpay_order_id (orders.lookup req.razorpay_order_id),
          Ev.fetchPayment false], orders, policies⟩
    | Except.ok actualAmount =>
        if actualAmount ≠ (orders.lookup req.razorpay_order_id).getD 0 then
          ⟨⟨400, false,
            "Policy creation failed: Trusted payment not received. Please contact support.",
            none⟩,
           [Ev.orderLookup req.razorpay_order_id (orders.lookup req.razorpay_order_id),
            Ev.fetchPayment true,
            Ev.amountCheck ((orders.lookup req.razorpay_order_id).getD 0) actualAmount,
            Ev.alertEmail env.alertEmailOk], orders, policies⟩
        else if jsFalsyStr env.keySecret then
          ⟨⟨503, false, "Payment service not available - Razorpay not configured", none⟩,
           [Ev.orderLookup req.razorpay_order_id (orders.lookup req.razorpay_order_id),
            Ev.fetchPayment true,
            Ev.amountCheck ((orders.lookup req.razorpay_order_id).getD 0) actualAmount],
           orders, policies⟩
        else if expectedSignature env.keySecret req.razorpay_order_id
            req.razorpay_payment_id == req.razorpay_signature then
          match savePolicy env.tableName policies
              ⟨policyNumberOf env.now, req.razorpay_order_id, req.razorpay_payment_id,
               req.user_data, env.isoTime⟩ with
          | Except.ok policies2 =>
              ⟨⟨200, true, "Payment captured and policy created",
                some (some (policyNumberOf env.now))⟩,
               [Ev.orderLookup req.razorpay_order_id (orders.lookup req.razorpay_order_id),
                Ev.fetchPayment true,
                Ev.amountCheck ((orders.lookup req.razorpay_order_id).getD 0) actualAmount,
                Ev.sigVerify true, Ev.persistAttempt (policyNumberOf env.now) true] ++
               (if env.customerEmailOk then
                  [Ev.customerEmail true, Ev.companyEmail env.companyEmailOk]
                else [Ev.customerEmail false]),
               orders, policies2⟩
          | Except.error _ =>
              ⟨⟨500, false,
                "Payment captured but failed to create policy. Please contact support.",
                some none⟩,
               [Ev.orderLookup req.razorpay_order_id (orders.lookup req.razorpay_order_id),
                Ev.fetchPayment true,
                Ev.amountCheck ((orders.lookup req.razorpay_order_id).getD 0) actualAmount,
                Ev.sigVerify true, Ev.persistAttempt (policyNumberOf env.now) false],
               orders, policies⟩
        else
          ⟨⟨400, false, "Payment verification failed: Invalid signature", none⟩,
           [Ev.orderLookup req.razorpay_order_id (orders.lookup req.razorpay_order_id),
            Ev.fetchPayment true,
            Ev.amountCheck ((orders.lookup req.razorpay_order_id).getD 0) actualAmount,
            Ev.sigVerify false], orders, policies⟩

/-- Body of `POST /api/create-order`. The handler destructures only
`planType`; any client-supplied amount or other fields sit unread in the
body. -/
structure CreateReq where
  planType : String
  clientAmount : Option Nat
  otherFields : List (String × JsValue)

/-- JSON response of the create-order endpoint: `id` on success, `error`
otherwise. -/
structure CreateResp where
  status : Nat
  orderId : Option String
  errorMsg : Option String
  deriving DecidableEq

/-- The `/api/create-order` handler of server.js: resolve the price from
`planPrices`, reject unknown plans and an unconfigured client, create the
provider order, and record `(order.id → amount)` in `orderStore`. -/
def createOrder (env : Env) (orders : OrderStore) (req : CreateReq) :
    CreateResp × OrderStore :=
  if jsFalsyNum (planPrices req.planType) then
    (⟨400, none, some "Invalid plan type"⟩, orders)
  else if !(razorpayConfigured env) then
    (⟨503, none, some "Payment service not available - Razorpay not configured"⟩, orders)
  else
    match env.createOutcome with
    | Except.error _ => (⟨500, none, some "Could not create order"⟩, orders)
    | Except.ok oid =>
        (⟨200, some oid, none⟩, mapSet orders oid ((planPrices req.planType).getD 0))

/-- The order stores reachable from the empty map by any interleaving of the
two endpoints that touch it: `create-order` (the only writer) and
`verify-payment` (a reader). -/
inductive ReachableOrders : OrderStore → Prop where
  | nil : ReachableOrders []
  | create (env : Env) (req : CreateReq) {s : OrderStore} :
      ReachableOrders s → ReachableOrders (createOrder env s req).2
  | verify (env : Env) (policies : PolicyStore) (req : VerifyReq) {s : OrderStore} :
      ReachableOrders s → ReachableOrders (verifyPayment env s policies req).orders

/-! ## Concrete fixtures for witness instances -/

/-- A fully configured environment whose collaborators all succeed. -/
def envA : Env :=
  { keyIdSet := true, keySecret := "k", tableName := "policies",
    fetchOutcome := Except.ok 99900, createOutcome := Except.ok "order_1",
    alertEmailOk := true, customerEmailOk := true, companyEmailOk := true,
    now := 1712345678, isoTime := "2024-04-05T00:00:00.000Z" }

/-- A small truthy user payload. -/
def udA : JsValue := JsValue.obj [("name", JsValue.str "A")]

/-- A verification request for order `order_1` carrying a given signature. -/
def reqA (sig : String) : VerifyReq := ⟨"order_1", "pay_1", sig, udA⟩

/-- An order store holding the cached expectation for `order_1`. -/
def ordersA : OrderStore := [("order_1", 99900)]

/-- `envA` with the provider reporting a tampered (smaller) charge. -/
def envMismatch : Env := { envA with fetchOutcome := Except.ok 50000 }

/-- An environment with no Razorpay credentials: the client is null. -/
def envNoRzp : Env := { envA with keyIdSet := false, keySecret := "" }

/-- The correct signature for `order_1`/`pay_1` under the secret of `envA`. -/
def sigW : String := expectedSignature "k" "order_1" "pay_1"

/-- A concrete policy item. -/
def polA : Policy := ⟨"SSST1", "order_1", "pay_1", udA, "t"⟩

/-- A second policy item generated with the same policy id as `polA`. -/
def polB : Policy := ⟨"SSST1", "order_2", "pay_2", udA, "t"⟩

/-- A create-order request that also smuggles a client-supplied amount. -/
def reqC : CreateReq := ⟨"student-shield", some 42, [("x", JsValue.str "y")]⟩

/-- Same plan type as `reqC` but a different client amount and extra
fields. -/
def reqC2 : CreateReq := ⟨"student-shield", some 777777, [("amount", JsValue.number 5)]⟩

/-- A verification request whose `user_data` is a present but empty object. -/
def reqEmptyUd : VerifyReq := ⟨"order_cex", "pay_cex", "sig_cex", JsValue.obj []⟩

/-- A verification request with an empty (falsy) order id. -/
def reqNoOid : VerifyReq := ⟨"", "pay_1", "sig", udA⟩

/-! ## Trace ordering checker

A linear scan over an effect trace checking the two ordering obligations of
the verification path: a signature verification may only appear after an
amount comparison, and a persistence attempt only after a successful
signature verification. -/

/-- Scan a trace with two flags: `seenAmount` (an amount comparison has
occurred) and `seenSigOk` (a successful signature verification has
occurred). -/
def chkTrace (seenAmount seenSigOk : Bool) : List Ev → Bool
  | [] => true
  | Ev.amountCheck _ _ :: rest => chkTrace true seenSigOk rest
  | Ev.sigVerify ok :: rest => seenAmount && chkTrace seenAmount (seenSigOk || ok) rest
  | Ev.persistAttempt _ _ :: rest => seenSigOk && chkTrace seenAmount seenSigOk rest
  | _ :: rest => chkTrace seenAmount seenSigOk rest

/-- Soundness of the scan for the first obligation: a signature-verification
event in an accepted trace is preceded by an amount comparison (unless one
was already charged to the context flag). -/
lemma chkTrace_sig_sound (l1 : List Ev) :
    ∀ (sA sST : Bool) (l2 : List Ev) (ok : Bool),
      chkTrace sA sST (l1 ++ Ev.sigVerify ok :: l2) = true →
      sA = true ∨ ∃ e a, Ev.amountCheck e a ∈ l1 := by
  induction l1 with
  | nil =>
      intro sA sST l2 ok h
      simp only [List.nil_append, chkTrace, Bool.and_eq_true] at h
      exact Or.inl h.1
  | cons x t ih =>
      intro sA sST l2 ok h
      cases x <;> simp only [List.cons_append, chkTrace, Bool.and_eq_true] at h
      case amountCheck e a =>
          exact Or.inr ⟨e, a, List.mem_cons_self _ _⟩
      case sigVerify ok2 =>
          rcases ih sA (sST || ok2) l2 ok h.2 with h1 | ⟨e, a, hm⟩
          · exact Or.inl h1
          · exact Or.inr ⟨e, a, List.mem_cons_of_mem _ hm⟩
      case persistAttempt pid okp =>
          rcases ih sA sST l2 ok h.2 with h1 | ⟨e, a, hm⟩
          · exact Or.inl h1
          · exact Or.inr ⟨e, a, List.mem_cons_of_mem _ hm⟩
      all_goals
        rcases ih _ _ l2 ok h with h1 | ⟨e, a, hm⟩
        · exact Or.inl h1
        · exact Or.inr ⟨e, a, List.mem_cons_of_mem _ hm⟩

/-- Soundness of the scan for the second obligation: a persistence attempt in
an accepted trace is preceded by a successful signature verification (unless
one was already charged to the context flag). -/
lemma chkTrace_persist_sound (l1 : List Ev) :
    ∀ (sA sST : Bool) (l2 : List Ev) (pid : String) (okp : Bool),
      chkTrace sA sST (l1 ++ Ev.persistAttempt pid okp :: l2) = true →
      sST = true ∨ Ev.sigVerify true ∈ l1 := by
  induction l1 with
  | nil =>
      intro sA sST l2 pid okp h
      simp only [List.nil_append, chkTrace, Bool.and_eq_true] at h
      exact Or.inl h.1
  | cons x t ih =>
      intro sA sST l2 pid okp h
      cases x <;> simp only [List.cons_append, chkTrace, Bool.and_eq_true] at h
      case sigVerify ok2 =>
          rcases ih sA (sST || ok2) l2 pid okp h.2 with h1 | hm
          · cases ok2 with
            | true => exact Or.inr (List.mem_cons_self _ _)
            | false =>
                simp only [Bool.or_false] at h1
                exact Or.inl h1
          · exact Or.inr (List.mem_cons_of_mem _ hm)
      case persistAttempt pid2 okp2 =>
          rcases ih sA sST l2 pid okp h.2 with h1 | hm
          · exact Or.inl h1
          · exact Or.inr (List.mem_cons_of_mem _ hm)
      all_goals
        rcases ih _ _ l2 pid okp h with h1 | hm
        · exact Or.inl h1
        · exact Or.inr (List.mem_cons_of_mem _ hm)

/-- Every trace the verify-payment handler can produce passes the ordering
scan with both flags initially clear. -/
lemma verifyPayment_chkTrace (env : Env) (orders : OrderStore)
    (policies : PolicyStore) (req : VerifyReq) :
    chkTrace false false (verifyPayment env orders policies req).trace = true := by
  unfold verifyPayment
  repeat' split
  all_goals simp [chkTrace]

/-- Frame property of the verification handler: the pending-order store is
read but never written. -/
lemma verifyPayment_orders_eq (env : Env) (orders : OrderStore)
    (policies : PolicyStore) (req : VerifyReq) :
    (verifyPayment env orders policies req).orders = orders := by
  unfold verifyPayment
  repeat' split
  all_goals rfl

/-- The price table only ever maps to the two configured plan prices. -/
lemma planPrices_mem (p : String) (a : Nat) (h : planPrices p = some a) :
    a = 99900 ∨ a = 199900 := by
  unfold planPrices at h
  split at h
  · exact Or.inl (Option.some_injective _ h.symm)
  · split at h
    · exact Or.inr (Option.some_injective _ h.symm)
    · exact absurd h (by simp)

/-- Configured plan prices are nonzero, so the falsy test on a present
cache entry never fires. -/
lemma planPrices_ne_zero (p : String) (a : Nat) (h : planPrices p = some a) : a ≠ 0 := by
  rcases planPrices_mem p a h with h1 | h1 <;> omega

/-- A configured client implies a truthy `RAZORPAY_KEY_SECRET`. -/
lemma keySecret_truthy_of_configured (env : Env) (h : razorpayConfigured env = true) :
    jsFalsyStr env.keySecret = false := by
  simp only [razorpayConfigured, Bool.and_eq_true, Bool.not_eq_true'] at h
  exact h.2

/-! ## Branch-evaluation lemmas for the verification handler -/

/-- Evaluation of the handler when a required identifier field is falsy. -/
lemma verifyPayment_eq_missing_fields (env : Env) (orders : OrderStore)
    (policies : PolicyStore) (req : VerifyReq)
    (h : (jsFalsyStr req.razorpay_order_id || jsFalsyStr req.razorpay_payment_id ||
      jsFalsyStr req.razorpay_signature) = true) :
    verifyPayment env orders policies req =
      ⟨⟨400, false, "Missing required payment fields", none⟩, [], orders, policies⟩ := by
  unfold verifyPayment
  rw [h]
  simp

/-- Evaluation of the handler when the identifiers are truthy but
`user_data` is falsy. -/
lemma verifyPayment_eq_missing_userdata (env : Env) (orders : OrderStore)
    (policies : PolicyStore) (req : VerifyReq)
    (h : (jsFalsyStr req.razorpay_order_id || jsFalsyStr req.razorpay_payment_id ||
      jsFalsyStr req.razorpay_signature) = false)
    (hud : req.user_data.falsy = true) :
    verifyPayment env orders policies req =
      ⟨⟨400, false, "Missing user data", none⟩, [], orders, policies⟩ := by
  unfold verifyPayment
  rw [h, hud]
  simp

/-- Evaluation of the handler when validation passes but the order id has no
cache entry. -/
lemma verifyPayment_eq_unknown_order (env : Env) (orders : OrderStore)
    (policies : PolicyStore) (req : VerifyReq)
    (h : (jsFalsyStr req.razorpay_order_id || jsFalsyStr req.razorpay_payment_id ||
      jsFalsyStr req.razorpay_signature) = false)
    (hud : req.user_data.falsy = false)
    (hmiss : orders.lookup req.razorpay_order_id = none) :
    verifyPayment env orders policies req =
      ⟨⟨400, false, "Invalid order ID", none⟩,
       [Ev.orderLookup req.razorpay_order_id none], orders, policies⟩ := by
  unfold verifyPayment
  rw [h, hud, hmiss]
  simp [jsFalsyNum]

/-- Evaluation of the handler on the amount-mismatch (tampering) branch. -/
lemma verifyPayment_eq_mismatch (env : Env) (orders : OrderStore)
    (policies : PolicyStore) (req : VerifyReq) (expAmt actualAmt : Nat)
    (h : (jsFalsyStr req.razorpay_order_id || jsFalsyStr req.razorpay_payment_id ||
      jsFalsyStr req.razorpay_signature) = false)
    (hud : req.user_data.falsy = false)
    (hlook : orders.lookup req.razorpay_order_id = some expAmt)
    (hnz : expAmt ≠ 0)
    (hconf : razorpayConfigured env = true)
    (hfetch : env.fetchOutcome = Except.ok actualAmt)
    (hne : actualAmt ≠ expAmt) :
    verifyPayment env orders policies req =
      ⟨⟨400, false,
        "Policy creation failed: Trusted payment not received. Please contact support.",
        none⟩,
       [Ev.orderLookup req.razorpay_order_id (some expAmt), Ev.fetchPayment true,
        Ev.amountCheck expAmt actualAmt, Ev.alertEmail env.alertEmailOk],
       orders, policies⟩ := by
  unfold verifyPayment
  rw [h, hud, hlook, hconf, hfetch]
  simp [jsFalsyNum, hnz, hne]

/-- Evaluation of the handler on the full success path: amounts agree, the
signature matches, and the conditional policy write succeeds. -/
lemma verifyPayment_eq_success (env : Env) (orders : OrderStore)
    (policies : PolicyStore) (req : VerifyReq) (expAmt : Nat)
    (h : (jsFalsyStr req.razorpay_order_id || jsFalsyStr req.razorpay_payment_id ||
      jsFalsyStr req.razorpay_signature) = false)
    (hud : req.user_data.falsy = false)
    (hlook : orders.lookup req.razorpay_order_id = some expAmt)
    (hnz : expAmt ≠ 0)
    (hconf : razorpayConfigured env = true)
    (hfetch : env.fetchOutcome = Except.ok expAmt)
    (hsigeq : req.razorpay_signature =
      expectedSignature env.keySecret req.razorpay_order_id req.razorpay_payment_id)
    (htbl : jsFalsyStr env.tableName = false)
    (hnotex : policies.lookup (policyNumberOf env.now) = none) :
    verifyPayment env orders policies req =
      ⟨⟨200, true, "Payment captured and policy created",
        some (some (policyNumberOf env.now))⟩,
       [Ev.orderLookup req.razorpay_order_id (some expAmt), Ev.fetchPayment true,
        Ev.amountCheck expAmt expAmt, Ev.sigVerify true,
        Ev.persistAttempt (policyNumberOf env.now) true] ++
       (if env.customerEmailOk then
          [Ev.customerEmail true, Ev.companyEmail env.companyEmailOk]
        else [Ev.customerEmail false]),
       orders,
       (policyNumberOf env.now,
        ⟨policyNumberOf env.now, req.razorpay_order_id, req.razorpay_payment_id,
         req.user_data, env.isoTime⟩) :: policies⟩ := by
  have hks := keySecret_truthy_of_configured env hconf
  unfold verifyPayment
  rw [h, hud, hlook, hconf, hfetch, hsigeq]
  simp [jsFalsyNum, hnz, hks, savePolicy, htbl, hnotex]

/-! ## Sanity vectors for the crypto embedding

Standard test vectors (FIPS 180-4 / RFC 4231) pinning the SHA-256 and
HMAC-SHA256 implementations to the algorithms the Node crypto library
computes. -/

set_option maxRecDepth 100000

/-- FIPS 180-4 vector: SHA-256 of the one-block message `"abc"`. -/
theorem sha256_vector_abc :
    hexOfBytes (sha256 (utf8Encode "abc")) =
      "ba7816bf8f01cfea414140de5dae2223b00361a396177a9cb410ff61f20015ad" := by decide

/-- RFC 4231 test case 2 for HMAC-SHA256. -/
theorem hmacSha256_rfc4231_tc2 :
    hmacSha256Hex "Jefe" "what do ya want for nothing?" =
      "5bdcc146bf60754e6a042426089575c75a003f089d2739839dec58b964ec3843" := by decide

/-! ## Claim theorems -/

/-- C3: the signature verifier accepts exactly when the provided signature
equals the hex encoding of HMAC-SHA256 keyed by the secret over the UTF-8
bytes of `orderId ++ "|" ++ paymentId`; being a total Bool function it
returns `false` (the invalid-signature branch) on every mismatch and never
throws. -/
theorem verifySignature_accepts_iff_hmac (orderId paymentId secret provided : String) :
    verifySignature orderId paymentId secret provided = true ↔
      provided = hexOfBytes (hmacSha256 (utf8Encode secret)
        (utf8Encode (orderId ++ "|" ++ paymentId))) := by
  unfold verifySignature expectedSignature hmacSha256Hex
  rw [beq_iff_eq]
  exact eq_comm

/-- C5: `savePolicy` writes with a not-exists precondition on `policyId`:
after a first successful save, a second save with the same `policyId` fails
with the condition error and the first record is still the one a lookup
finds. -/
theorem savePolicy_idempotent_create (tableName : String)
    (store store1 : PolicyStore) (p1 p2 : Policy)
    (hok : savePolicy tableName store p1 = Except.ok store1)
    (hid : p2.policyId = p1.policyId) :
    savePolicy tableName store1 p2 = Except.error SaveErr.conditionFailed ∧
    store1.lookup p1.policyId = some p1 := by
  unfold savePolicy at hok
  split at hok
  · cases hok
  · next htbl =>
      split at hok
      · cases hok
      · injection hok with h1
        subst h1
        constructor
        · unfold savePolicy
          rw [if_neg htbl]
          simp [List.lookup, hid]
        · simp [List.lookup]

/-- Witness for C5 at a concrete table, store and pair of policies. -/
theorem savePolicy_idempotent_create_witness :
    savePolicy "policies" [(polA.policyId, polA)] polB =
      Except.error SaveErr.conditionFailed ∧
    List.lookup polA.policyId [(polA.policyId, polA)] = some polA :=
  savePolicy_idempotent_create "policies" [] [(polA.policyId, polA)] polA polB rfl rfl

/-- C6: for a known plan type the create-order flow stores the server-side
table price against the provider order id, and the whole outcome depends on
the request only through `planType` — in particular not on any
client-supplied amount. -/
theorem createOrder_stores_server_price (env : Env) (orders : OrderStore)
    (req : CreateReq) (amt : Nat) (oid : String)
    (hp : planPrices req.planType = some amt)
    (hconf : razorpayConfigured env = true)
    (hc : env.createOutcome = Except.ok oid) :
    ((createOrder env orders req).2).lookup oid = some amt ∧
    ∀ req2 : CreateReq, req2.planType = req.planType →
      createOrder env orders req2 = createOrder env orders req := by
  have hnz := planPrices_ne_zero _ _ hp
  constructor
  · unfold createOrder
    rw [hp, hconf, hc]
    simp [jsFalsyNum, hnz, mapSet, List.lookup]
  · intro req2 h2
    unfold createOrder
    rw [h2]

/-- Witness for C6: the stored amount is the table price, and a request
that differs only in client-supplied fields produces the identical
outcome. -/
theorem createOrder_stores_server_price_witness :
    ((createOrder envA [] reqC).2).lookup "order_1" = some 99900 ∧
    createOrder envA [] reqC2 = createOrder envA [] reqC := by
  have t := createOrder_stores_server_price envA [] reqC 99900 "order_1"
    (by decide) (by decide) rfl
  exact ⟨t.1, t.2 reqC2 rfl⟩

/-- C7 counterexample: a request whose `user_data` is a present but *empty*
object payload passes validation (JS truthiness treats `{}` as truthy), so
the handler proceeds to the order lookup instead of returning a
ValidationError — refuting the claim for that input. -/
theorem validate_empty_userdata_cex :
    (verifyPayment envA [] [] reqEmptyUd).resp.message = "Invalid order ID" ∧
    (verifyPayment envA [] [] reqEmptyUd).resp.message ≠ "Missing user data" ∧
    (verifyPayment envA [] [] reqEmptyUd).resp.message ≠ "Missing required payment fields" ∧
    (verifyPayment envA [] [] reqEmptyUd).trace = [Ev.orderLookup "order_cex" none] := by
  decide

/-- C7 amended: validation requires *truthy* (JS sense) `razorpay_order_id`,
`razorpay_payment_id`, `razorpay_signature` and `user_data`; a missing or
falsy value yields the ValidationError response with no further steps
(empty trace, stores untouched), but a present non-falsy payload — even an
empty object — passes. -/
theorem validate_requires_truthy_fields (env : Env) (orders : OrderStore)
    (policies : PolicyStore) (req : VerifyReq) :
    ((jsFalsyStr req.razorpay_order_id || jsFalsyStr req.razorpay_payment_id ||
        jsFalsyStr req.razorpay_signature) = true →
      verifyPayment env orders policies req =
        ⟨⟨400, false, "Missing required payment fields", none⟩, [], orders, policies⟩) ∧
    ((jsFalsyStr req.razorpay_order_id || jsFalsyStr req.razorpay_payment_id ||
        jsFalsyStr req.razorpay_signature) = false → req.user_data.falsy = true →
      verifyPayment env orders policies req =
        ⟨⟨400, false, "Missing user data", none⟩, [], orders, policies⟩) :=
  ⟨verifyPayment_eq_missing_fields env orders policies req,
   verifyPayment_eq_missing_userdata env orders policies req⟩

/-- Witness for the amended C7 at a request with an empty order id. -/
theorem validate_requires_truthy_fields_witness :
    verifyPayment envA ordersA [] reqNoOid =
      ⟨⟨400, false, "Missing required payment fields", none⟩, [], ordersA, []⟩ :=
  (validate_requires_truthy_fields envA ordersA [] reqNoOid).1 (by decide)

/-- C8 (code bug): while the provider client is unconfigured (null), the
endpoint never answers 503: the null client makes the amount fetch throw,
so a well-formed request for a known order gets the 500 amount-fetch
failure instead of the intended 503 branch, which is unreachable. -/
theorem verify_unconfigured_returns_500_not_503 :
    (∀ (env : Env) (orders : OrderStore) (policies : PolicyStore) (req : VerifyReq),
        razorpayConfigured env = false →
        (verifyPayment env orders policies req).resp.status ≠ 503) ∧
    (verifyPayment envNoRzp ordersA [] (reqA "sig_w")).resp =
      ⟨500, false, "Could not verify payment amount", none⟩ := by
  constructor
  · intro env orders policies req hconf
    unfold verifyPayment
    rw [hconf]
    repeat' split
    all_goals simp_all
  · decide

/-- Witness for the general part of C8 at a concrete unconfigured
environment. -/
theorem verify_unconfigured_returns_500_not_503_witness :
    (verifyPayment envNoRzp ordersA [] (reqA "sig_w")).resp.status ≠ 503 :=
  verify_unconfigured_returns_500_not_503.1 envNoRzp ordersA [] (reqA "sig_w") (by decide)

/-- C1: amount mismatch is terminal — the mismatch response is the 400
AmountMismatch failure, no policy is persisted, the business alert email is
attempted, and its success or failure changes neither the response nor the
(absent) persistence. -/
theorem verify_amount_mismatch_alerts_and_rejects
    (env : Env) (orders : OrderStore) (policies : PolicyStore) (req : VerifyReq)
    (expAmt actualAmt : Nat)
    (h : (jsFalsyStr req.razorpay_order_id || jsFalsyStr req.razorpay_payment_id ||
      jsFalsyStr req.razorpay_signature) = false)
    (hud : req.user_data.falsy = false)
    (hlook : orders.lookup req.razorpay_order_id = some expAmt)
    (hnz : expAmt ≠ 0)
    (hconf : razorpayConfigured env = true)
    (hfetch : env.fetchOutcome = Except.ok actualAmt)
    (hne : actualAmt ≠ expAmt) :
    (verifyPayment env orders policies req).resp =
      ⟨400, false,
       "Policy creation failed: Trusted payment not received. Please contact support.",
       none⟩ ∧
    (verifyPayment env orders policies req).policies = policies ∧
    (∀ pid ok, Ev.persistAttempt pid ok ∉ (verifyPayment env orders policies req).trace) ∧
    Ev.alertEmail env.alertEmailOk ∈ (verifyPayment env orders policies req).trace ∧
    (∀ b : Bool,
      (verifyPayment { env with alertEmailOk := b } orders policies req).resp =
        (verifyPayment env orders policies req).resp ∧
      (verifyPayment { env with alertEmailOk := b } orders policies req).policies =
        policies) := by
  have h1 := verifyPayment_eq_mismatch env orders policies req expAmt actualAmt
    h hud hlook hnz hconf hfetch hne
  have h2 := fun b : Bool =>
    verifyPayment_eq_mismatch { env with alertEmailOk := b } orders policies req
      expAmt actualAmt h hud hlook hnz hconf hfetch hne
  refine ⟨?_, ?_, ?_, ?_, ?_⟩
  · rw [h1]
  · rw [h1]
  · intro pid ok; rw [h1]; simp
  · rw [h1]; simp
  · intro b; rw [h2 b, h1]; exact ⟨rfl, rfl⟩

/-- Witness for C1 with a provider-reported charge of 50000 against a
cached expectation of 99900. -/
theorem verify_amount_mismatch_alerts_and_rejects_witness :
    (verifyPayment envMismatch ordersA [] (reqA "sig_w")).resp =
      ⟨400, false,
       "Policy creation failed: Trusted payment not received. Please contact support.",
       none⟩ ∧
    Ev.alertEmail envMismatch.alertEmailOk ∈
      (verifyPayment envMismatch ordersA [] (reqA "sig_w")).trace ∧
    Ev.persistAttempt (policyNumberOf envMismatch.now) true ∉
      (verifyPayment envMismatch ordersA [] (reqA "sig_w")).trace := by
  have t := verify_amount_mismatch_alerts_and_rejects envMismatch ordersA []
    (reqA "sig_w") 99900 50000 (by decide) rfl rfl (by decide) rfl rfl (by decide)
  exact ⟨t.1, t.2.2.2.1, t.2.2.1 (policyNumberOf envMismatch.now) true⟩

/-- C4: a verification request for an order id with no cache entry is
rejected as UnknownOrder regardless of the supplied signature, with both
stores untouched and neither persistence nor any email event in the
trace. -/
theorem verify_unknown_order_rejects
    (env : Env) (orders : OrderStore) (policies : PolicyStore) (req : VerifyReq)
    (h : (jsFalsyStr req.razorpay_order_id || jsFalsyStr req.razorpay_payment_id ||
      jsFalsyStr req.razorpay_signature) = false)
    (hud : req.user_data.falsy = false)
    (hmiss : orders.lookup req.razorpay_order_id = none) :
    (verifyPayment env orders policies req).resp =
      ⟨400, false, "Invalid order ID", none⟩ ∧
    (verifyPayment env orders policies req).policies = policies ∧
    (verifyPayment env orders policies req).orders = orders ∧
    (∀ pid ok, Ev.persistAttempt pid ok ∉ (verifyPayment env orders policies req).trace) ∧
    (∀ b : Bool, Ev.alertEmail b ∉ (verifyPayment env orders policies req).trace ∧
      Ev.customerEmail b ∉ (verifyPayment env orders policies req).trace ∧
      Ev.companyEmail b ∉ (verifyPayment env orders policies req).trace) := by
  have h1 := verifyPayment_eq_unknown_order env orders policies req h hud hmiss
  refine ⟨?_, ?_, ?_, ?_, ?_⟩
  · rw [h1]
  · rw [h1]
  · rw [h1]
  · intro pid ok; rw [h1]; simp
  · intro b; rw [h1]; exact ⟨by simp, by simp, by simp⟩

/-- Witness for C4: an order id never presented to order creation. -/
theorem verify_unknown_order_rejects_witness :
    (verifyPayment envA [] [] (reqA "sig_w")).resp =
      ⟨400, false, "Invalid order ID", none⟩ ∧
    Ev.persistAttempt (policyNumberOf envA.now) true ∉
      (verifyPayment envA [] [] (reqA "sig_w")).trace ∧
    Ev.alertEmail true ∉ (verifyPayment envA [] [] (reqA "sig_w")).trace := by
  have t := verify_unknown_order_rejects envA [] [] (reqA "sig_w") (by decide) rfl rfl
  exact ⟨t.1, t.2.2.2.1 _ true, (t.2.2.2.2 true).1⟩

/-- C2: in every execution trace of the handler, a signature-verification
event is preceded by an amount-comparison event, and a persistence attempt
is preceded by a *successful* signature verification — so no policy is ever
written without the signature having been verified first. -/
theorem verify_amount_before_sig_before_persist (env : Env) (orders : OrderStore)
    (policies : PolicyStore) (req : VerifyReq) :
    (∀ (l1 l2 : List Ev) (ok : Bool),
        (verifyPayment env orders policies req).trace = l1 ++ Ev.sigVerify ok :: l2 →
        ∃ e a, Ev.amountCheck e a ∈ l1) ∧
    (∀ (l1 l2 : List Ev) (pid : String) (okp : Bool),
        (verifyPayment env orders policies req).trace =
          l1 ++ Ev.persistAttempt pid okp :: l2 →
        Ev.sigVerify true ∈ l1) := by
  constructor
  · intro l1 l2 ok hsplit
    have hc := verifyPayment_chkTrace env orders policies req
    rw [hsplit] at hc
    rcases chkTrace_sig_sound l1 false false l2 ok hc with h1 | h2
    · cases h1
    · exact h2
  · intro l1 l2 pid okp hsplit
    have hc := verifyPayment_chkTrace env orders policies req
    rw [hsplit] at hc
    rcases chkTrace_persist_sound l1 false false l2 pid okp hc with h1 | h2
    · cases h1
    · exact h2

/-- The concrete valid request `reqA sigW` passes the field-truthiness
validation (its signature is a nonempty hex string). -/
lemma reqA_sigW_fields_truthy :
    (jsFalsyStr (reqA sigW).razorpay_order_id ||
     jsFalsyStr (reqA sigW).razorpay_payment_id ||
     jsFalsyStr (reqA sigW).razorpay_signature) = false := by decide

/-- Witness for C2 on the success path: the persistence attempt is preceded
by a successful signature verification. -/
theorem verify_amount_before_sig_before_persist_witness :
    Ev.sigVerify true ∈
      ([Ev.orderLookup "order_1" (some 99900), Ev.fetchPayment true,
        Ev.amountCheck 99900 99900, Ev.sigVerify true] : List Ev) :=
  (verify_amount_before_sig_before_persist envA ordersA [] (reqA sigW)).2
    [Ev.orderLookup "order_1" (some 99900), Ev.fetchPayment true,
     Ev.amountCheck 99900 99900, Ev.sigVerify true]
    [Ev.customerEmail true, Ev.companyEmail true]
    (policyNumberOf envA.now) true
    (by
      rw [verifyPayment_eq_success envA ordersA [] (reqA sigW) 99900
        reqA_sigW_fields_truthy rfl rfl (by decide) rfl rfl rfl rfl rfl]
      rfl)

/-- C9: the verification handler never mutates the pending-order cache, so
a replay of a successful request passes the order lookup again and, with a
fresh generated policy number, persists a second policy record. -/
theorem verify_preserves_orders_and_allows_replay
    (env : Env) (n2 : Nat) (orders : OrderStore) (policies : PolicyStore)
    (req : VerifyReq) (expAmt : Nat)
    (h : (jsFalsyStr req.razorpay_order_id || jsFalsyStr req.razorpay_payment_id ||
      jsFalsyStr req.razorpay_signature) = false)
    (hud : req.user_data.falsy = false)
    (hlook : orders.lookup req.razorpay_order_id = some expAmt)
    (hnz : expAmt ≠ 0)
    (hconf : razorpayConfigured env = true)
    (hfetch : env.fetchOutcome = Except.ok expAmt)
    (hsigeq : req.razorpay_signature =
      expectedSignature env.keySecret req.razorpay_order_id req.razorpay_payment_id)
    (htbl : jsFalsyStr env.tableName = false)
    (hnex1 : policies.lookup (policyNumberOf env.now) = none)
    (hnex2 : policies.lookup (policyNumberOf n2) = none)
    (hne : policyNumberOf n2 ≠ policyNumberOf env.now) :
    (∀ (e : Env) (o : OrderStore) (p : PolicyStore) (r : VerifyReq),
        (verifyPayment e o p r).orders = o) ∧
    (verifyPayment env orders policies req).resp.status = 200 ∧
    (verifyPayment { env with now := n2 } (verifyPayment env orders policies req).orders
        (verifyPayment env orders policies req).policies req).resp.status = 200 ∧
    ((verifyPayment { env with now := n2 } (verifyPayment env orders policies req).orders
        (verifyPayment env orders policies req).policies req).policies.lookup
        (policyNumberOf env.now)).isSome = true ∧
    ((verifyPayment { env with now := n2 } (verifyPayment env orders policies req).orders
        (verifyPayment env orders policies req).policies req).policies.lookup
        (policyNumberOf n2)).isSome = true := by
  have h1 := verifyPayment_eq_success env orders policies req expAmt
    h hud hlook hnz hconf hfetch hsigeq htbl hnex1
  have hnex2b : ((policyNumberOf env.now,
      (⟨policyNumberOf env.now, req.razorpay_order_id, req.razorpay_payment_id,
        req.user_data, env.isoTime⟩ : Policy)) :: policies).lookup
      (policyNumberOf ({ env with now := n2 } : Env).now) = none := by
    have e1 : (policyNumberOf n2 == policyNumberOf env.now) = false :=
      beq_eq_false_iff_ne.mpr hne
    simp [List.lookup, e1, hnex2]
  have h2 := verifyPayment_eq_success { env with now := n2 } orders
    ((policyNumberOf env.now,
      (⟨policyNumberOf env.now, req.razorpay_order_id, req.razorpay_payment_id,
        req.user_data, env.isoTime⟩ : Policy)) :: policies) req expAmt
    h hud hlook hnz hconf hfetch hsigeq htbl hnex2b
  have e1 : (policyNumberOf env.now == policyNumberOf n2) = false :=
    beq_eq_false_iff_ne.mpr (Ne.symm hne)
  refine ⟨verifyPayment_orders_eq, ?_, ?_, ?_, ?_⟩
  · rw [h1]
  · simp only [h1]
    rw [h2]
  · simp only [h1]
    rw [h2]
    simp [List.lookup, e1]
  · simp only [h1]
    rw [h2]
    simp [List.lookup]

/-- Witness for C9: a successful verification replayed with a later clock
persists a second policy while the first record stays retrievable. -/
theorem verify_preserves_orders_and_allows_replay_witness :
    (verifyPayment envA ordersA [] (reqA sigW)).resp.status = 200 ∧
    (verifyPayment { envA with now := 1799990000 }
        (verifyPayment envA ordersA [] (reqA sigW)).orders
        (verifyPayment envA ordersA [] (reqA sigW)).policies (reqA sigW)).resp.status =
      200 ∧
    ((verifyPayment { envA with now := 1799990000 }
        (verifyPayment envA ordersA [] (reqA sigW)).orders
        (verifyPayment envA ordersA [] (reqA sigW)).policies (reqA sigW)).policies.lookup
      (policyNumberOf envA.now)).isSome = true ∧
    ((verifyPayment { envA with now := 1799990000 }
        (verifyPayment envA ordersA [] (reqA sigW)).orders
        (verifyPayment envA ordersA [] (reqA sigW)).policies (reqA sigW)).policies.lookup
      (policyNumberOf 1799990000)).isSome = true := by
  have t := verify_preserves_orders_and_allows_replay envA 1799990000 ordersA []
    (reqA sigW) 99900 reqA_sigW_fields_truthy rfl rfl (by decide) rfl rfl rfl rfl
    rfl rfl (by decide)
  exact ⟨t.2.1, t.2.2.1, t.2.2.2.1, t.2.2.2.2⟩

/-- A falsy numeric lookup result that is not falsy is a present nonzero
value. -/
lemma jsFalsyNum_eq_false {o : Option Nat} (h : jsFalsyNum o = false) :
    ∃ a, o = some a ∧ a ≠ 0 := by
  cases o with
  | none => simp [jsFalsyNum] at h
  | some a => exact ⟨a, rfl, by simpa [jsFalsyNum] using h⟩

/-- C10: every amount a reachable pending-order store holds is one of the
two plan-table prices — in particular positive — so the handler's falsy
check on a lookup result coincides with the presence check, and no created
order is misreported as unknown. -/
theorem orderStore_amounts_from_price_table (s : OrderStore) (h : ReachableOrders s) :
    (∀ k a, s.lookup k = some a → a = 99900 ∨ a = 199900) ∧
    (∀ k, jsFalsyNum (s.lookup k) = true ↔ s.lookup k = none) := by
  have main : ∀ k a, s.lookup k = some a → a = 99900 ∨ a = 199900 := by
    induction h with
    | nil =>
        intro k a hk
        simp [List.lookup] at hk
    | create env req hprev ih =>
        intro k a hk
        unfold createOrder at hk
        split at hk
        · exact ih k a hk
        · next hfal =>
            split at hk
            · exact ih k a hk
            · split at hk
              · exact ih k a hk
              · next oid heq =>
                  have hfal2 : jsFalsyNum (planPrices req.planType) = false := by
                    revert hfal
                    cases jsFalsyNum (planPrices req.planType) <;> simp
                  obtain ⟨v, hv, hvnz⟩ := jsFalsyNum_eq_false hfal2
                  rw [hv] at hk
                  simp only [mapSet, Option.getD_some, List.lookup] at hk
                  split at hk
                  · cases hk
                    exact planPrices_mem _ _ hv
                  · exact ih k a hk
    | verify env policies req hprev ih =>
        intro k a hk
        rw [verifyPayment_orders_eq] at hk
        exact ih k a hk
  refine ⟨main, fun k => ?_⟩
  cases hl : s.lookup k with
  | none => simp [jsFalsyNum]
  | some a =>
      rcases main k a hl with rfl | rfl <;> simp [jsFalsyNum]

/-- Witness for C10 at the store produced by one concrete order creation. -/
theorem orderStore_amounts_from_price_table_witness :
    (99900 = 99900 ∨ 99900 = 199900) ∧
    (jsFalsyNum (((createOrder envA [] reqC).2).lookup "nope") = true ↔
      ((createOrder envA [] reqC).2).lookup "nope" = none) := by
  have t := orderStore_amounts_from_price_table _
    (ReachableOrders.create envA reqC ReachableOrders.nil)
  exact ⟨t.1 "order_1" 99900 (by decide), t.2 "nope"⟩

end StShield
